import Mathlib

/-!
Shallow embedding of the butler-node JSON-RPC client (`src/client.ts`,
here `src/unnamed/part_000`): the `Client` class with its correlation
table, handler registries, id generator, connection lifecycle and the
`onReceiveRaw` dispatcher.  JavaScript values that the dispatcher
inspects only duck-typed (truthiness, property-key coercion) are
modelled by `JsVal`; handler functions are opaque tokens (`Nat`), their
invocations and the promise continuations appear as explicit `Effect`s;
a thrown JavaScript exception is an `Except`/`Option Thrown` value.
-/

namespace ButlerNode

/-- A JavaScript value as far as the client inspects one: the dispatcher
only tests truthiness, compares with `"2.0"`, and coerces to a property
key, so objects are opaque (tagged by a `Nat`). -/
inductive JsVal where
  | undefined
  | null
  | jbool (b : Bool)
  | jnum (n : Int)
  | jstr (s : String)
  | jobj (tag : Nat)
deriving Repr, DecidableEq

/-- JavaScript truthiness (`if (v)`).  `undefined`, `null`, `false`,
`0` and `""` are falsy; every object is truthy. -/
def JsVal.truthy : JsVal → Bool
  | .undefined => false
  | .null => false
  | .jbool b => b
  | .jnum n => n != 0
  | .jstr s => s != ""
  | .jobj _ => true

/-- JavaScript property-key coercion, used for `handlers[obj.method]`
and `resultPromises[obj.id]`. -/
def JsVal.toKey : JsVal → String
  | .undefined => "undefined"
  | .null => "null"
  | .jbool b => if b then "true" else "false"
  | .jnum n => toString n
  | .jstr s => s
  | .jobj _ => "[object Object]"

/-- Loose equality test `v == "2.0"` as the source writes it
(`obj.jsonrpc != "2.0"` negated).  The string `"2.0"` and the number
`2` compare loosely equal; the other value shapes do not. -/
def looseEq20 : JsVal → Bool
  | .jstr s => s == "2.0"
  | .jnum n => n == 2
  | _ => false

/-- `StandardErrorCode` from the source. -/
def StandardErrorCode.ParseError : Int := -32700
def StandardErrorCode.InvalidRequest : Int := -32600
def StandardErrorCode.MethodNotFound : Int := -32601
def StandardErrorCode.InvalidParams : Int := -32602
def StandardErrorCode.InternalError : Int := -32603

/-- `RpcError` — `data` carries the stack string when present. -/
structure RpcError where
  code : Int
  message : String
  data : Option String := none
deriving Repr, DecidableEq

/-- An outgoing `IResult` envelope as built by `createResult`:
`result` is `.undefined` in the error form. -/
structure OutMsg where
  jsonrpc : String
  id : JsVal
  result : JsVal := .undefined
  error : Option RpcError := none
deriving Repr, DecidableEq

/-- An outgoing `IRequest` envelope as built by `createRequest`'s
creator. -/
structure RequestMsg where
  jsonrpc : String
  method : String
  id : Int
deriving Repr, DecidableEq

/-- Anything `sendRaw` writes to the socket. -/
inductive WireMsg where
  | request (r : RequestMsg)
  | resultMsg (m : OutMsg)
deriving Repr, DecidableEq

/-- `createResult<T>()`'s result creator: `if (error)` (an `RpcError`
object is always truthy, so `Option` captures the test) emit the error
form, else the result form. -/
def createResult (id result : JsVal) (error : Option RpcError) : OutMsg :=
  match error with
  | some e => { jsonrpc := "2.0", id := id, error := some e }
  | none => { jsonrpc := "2.0", id := id, result := result }

/-- An inbound envelope after `JSON.parse` returned an object: the five
fields the dispatcher duck-types on, `.undefined` when absent. -/
structure Envelope where
  jsonrpc : JsVal := .undefined
  id : JsVal := .undefined
  method : JsVal := .undefined
  result : JsVal := .undefined
  error : JsVal := .undefined
  params : JsVal := .undefined
deriving Repr, DecidableEq

/-- One inbound line after the `JSON.parse` / `typeof` stage:
`parseFail` is the thrown parse error's message, `nonObject` a
successfully parsed non-object with its `typeof` name. -/
inductive Parsed where
  | parseFail (msg : String)
  | nonObject (typeName : String)
  | objVal (o : Envelope)
deriving Repr, DecidableEq

/-- The exceptions the client code throws, structurally. -/
inductive Thrown where
  | missingIdInResult (obj : OutMsg)
  | missingIdInRequest (id : Int)
  | disconnectedSend
  | badJsonrpcSend
  | alreadyConnected
  | secondRequestHandler (method : String)
  | secondNotificationHandler (method : String)
deriving Repr, DecidableEq

/-- The mutable fields of `Client`.  The correlation table
`resultPromises` is kept as its set of property keys (its continuations
are opaque; resolving / rejecting them shows up as `Effect`s); the
handler registries map method names to opaque handler tokens. -/
structure ClientState where
  socket : Bool
  resultPromises : List String
  requestHandlers : List (String × Nat)
  notificationHandlers : List (String × Nat)
  idSeed : Int
deriving Repr, DecidableEq

/-- The state `constructor()` leaves a fresh client in. -/
def newClient : ClientState :=
  { socket := false, resultPromises := [], requestHandlers := [],
    notificationHandlers := [], idSeed := 1 }

/-- Observable side effects of one dispatch / call step.  `warn...`
constructors are `console.warn` calls and carry the value the source
interpolates (`warnDroppedError` carries `obj.result`, exactly as
line `dropped error: ...` stringifies `obj.result`). -/
inductive Effect where
  | sent (m : WireMsg)
  | warnNoNotifHandler (o : Envelope)
  | notified (handler : Nat) (o : Envelope)
  | invokedRequest (handler : Nat) (o : Envelope)
  | scheduledAsync (id : JsVal) (retval : JsVal)
  | warnDroppedResult (v : JsVal)
  | warnDroppedError (v : JsVal)
  | resolved (key : String) (v : JsVal)
  | rejected (key : String) (v : JsVal)
deriving Repr, DecidableEq

/-- `generateID(): number { return this.idSeed++; }` -/
def generateID (st : ClientState) : Int × ClientState :=
  (st.idSeed, { st with idSeed := st.idSeed + 1 })

/-- The creator produced by `createRequest(method)`: builds a request
envelope around `client.generateID()` (so applying it bumps `idSeed`). -/
def createRequest (method : String) (st : ClientState) :
    RequestMsg × ClientState :=
  let (id, st1) := generateID st
  ({ jsonrpc := "2.0", method := method, id := id }, st1)

/-- `sendRaw`.  The `typeof obj !== "object"` guard always passes for
the envelopes this embedding can hand it (they are objects by
construction); the `jsonrpc` guard is kept. -/
def sendRaw (st : ClientState) (m : WireMsg) : Except Thrown WireMsg :=
  if !st.socket then .error .disconnectedSend
  else
    let ok := match m with
      | .request r => r.jsonrpc == "2.0"
      | .resultMsg o => o.jsonrpc == "2.0"
    if !ok then .error .badJsonrpcSend
    else .ok m

/-- `sendResult(genericResult, id, result, error)`: build the result
via `createResult`, throw `missing id in result ...` when the built
envelope's id is falsy (this rejects `null` — and `0` — ids), else
hand it to `sendRaw`. -/
def sendResult (st : ClientState) (id result : JsVal)
    (error : Option RpcError) : Except Thrown WireMsg :=
  let obj := createResult id result error
  if !obj.id.truthy then .error (.missingIdInResult obj)
  else sendRaw st (.resultMsg obj)

/-- `onRequest(rc, handler)`: the sample `rc(null)(this)` draws an id
from `generateID`, then a second registration for the sample's method
throws before the registry is touched. -/
def onRequest (st : ClientState) (method : String) (handler : Nat) :
    ClientState × Option Thrown :=
  let (sample, st1) := createRequest method st
  match st1.requestHandlers.lookup sample.method with
  | some _ => (st1, some (.secondRequestHandler sample.method))
  | none =>
    ({ st1 with requestHandlers := st1.requestHandlers ++ [(sample.method, handler)] },
     none)

/-- `onNotification(nc, handler)`: `nc(null)` builds a plain
notification (no id is drawn); a second registration for the method
throws before the registry is touched. -/
def onNotification (st : ClientState) (method : String) (handler : Nat) :
    ClientState × Option Thrown :=
  match st.notificationHandlers.lookup method with
  | some _ => (st, some (.secondNotificationHandler method))
  | none =>
    ({ st with notificationHandlers := st.notificationHandlers ++ [(method, handler)] },
     none)

/-- The notification envelope `createNotification(method)`'s creator
builds. -/
structure NotificationMsg where
  jsonrpc : String
  method : String
  params : JsVal
deriving Repr, DecidableEq

def createNotification (method : String) (params : JsVal) : NotificationMsg :=
  { jsonrpc := "2.0", method := method, params := params }

/-- `notify(nc, params)`: builds the envelope via the creator and then
does nothing with it — nothing is written and no state changes. -/
def notify (st : ClientState) (method : String) (params : JsVal) :
    ClientState × List Effect :=
  let _obj := createNotification method params
  (st, [])

/-- Inserting a key into the correlation table
(`this.resultPromises[id] = {resolve, reject}` — overwrite keeps the
key set unchanged). -/
def insertKey (l : List String) (k : String) : List String :=
  if l.contains k then l else l ++ [k]

/-- `call(creator)`: apply the creator (drawing a fresh id), throw on a
falsy id, transmit via `sendRaw` (which throws while disconnected), and
only then record the pending correlation under the id's key. -/
def call (st : ClientState) (method : String) :
    ClientState × Except Thrown Int :=
  let (obj, st1) := createRequest method st
  if !(JsVal.jnum obj.id).truthy then
    (st1, .error (.missingIdInRequest obj.id))
  else
    match sendRaw st1 (.request obj) with
    | .error t => (st1, .error t)
    | .ok _ =>
      ({ st1 with resultPromises := insertKey st1.resultPromises (toString obj.id) },
       .ok obj.id)

/-- Outcome of a request handler's synchronous invocation
(`retval = handler(obj)` inside `try`): a return value, or a thrown
error with message and stack. -/
inductive SyncOutcome where
  | ok (retval : JsVal)
  | threw (msg : String) (stack : String)
deriving Repr, DecidableEq

/-- Outcome of one `onReceiveRaw` dispatch: the state afterwards, the
effects in order, and the exception that escaped the dispatcher, if
any. -/
structure DispatchOutcome where
  state : ClientState
  effects : List Effect
  thrown : Option Thrown
deriving Repr, DecidableEq

/-- Finish a dispatch step with a `sendResult`: a send failure becomes
the dispatcher's escaped exception. -/
def sendResultOutcome (st : ClientState) (effs : List Effect)
    (id result : JsVal) (error : Option RpcError) : DispatchOutcome :=
  match sendResult st id result error with
  | .error t => { state := st, effects := effs, thrown := some t }
  | .ok m => { state := st, effects := effs ++ [.sent m], thrown := none }

/-- The `!obj.id` branch: notification dispatch. -/
def notifBranch (st : ClientState) (o : Envelope) : DispatchOutcome :=
  match st.notificationHandlers.lookup o.method.toKey with
  | none => { state := st, effects := [.warnNoNotifHandler o], thrown := none }
  | some tok => { state := st, effects := [.notified tok o], thrown := none }

/-- The `obj.method` branch: inbound request dispatch.  `runHandler`
is the oracle for the registered handler's synchronous behaviour; a
returned value's `.then`/`.catch` completion is recorded as a
`scheduledAsync` effect (the dispatcher does not await it). -/
def requestBranch (runHandler : Nat → Envelope → SyncOutcome)
    (st : ClientState) (o : Envelope) : DispatchOutcome :=
  match st.requestHandlers.lookup o.method.toKey with
  | none =>
    sendResultOutcome st [] o.id .null
      (some { code := StandardErrorCode.MethodNotFound,
              message := "no handler is registered for method " ++ o.method.toKey })
  | some tok =>
    match runHandler tok o with
    | .threw msg stack =>
      sendResultOutcome st [.invokedRequest tok o] o.id .null
        (some { code := StandardErrorCode.InternalError,
                message := "sync error: " ++ msg, data := some stack })
    | .ok retval =>
      { state := st, effects := [.invokedRequest tok o, .scheduledAsync o.id retval],
        thrown := none }

/-- The `obj.result` branch: resolve the pending correlation with the
payload and delete it, or warn and drop. -/
def resultBranch (st : ClientState) (o : Envelope) : DispatchOutcome :=
  if st.resultPromises.contains o.id.toKey then
    { state := { st with resultPromises := st.resultPromises.erase o.id.toKey },
      effects := [.resolved o.id.toKey o.result], thrown := none }
  else
    { state := st, effects := [.warnDroppedResult o.result], thrown := none }

/-- The `obj.error` branch.  The source warns with `obj.result` and
calls `promise.reject(obj.result)` — not `obj.error` — so both the
warning and the rejection payload carry `o.result` here. -/
def errorBranch (st : ClientState) (o : Envelope) : DispatchOutcome :=
  if st.resultPromises.contains o.id.toKey then
    { state := { st with resultPromises := st.resultPromises.erase o.id.toKey },
      effects := [.rejected o.id.toKey o.result], thrown := none }
  else
    { state := st, effects := [.warnDroppedError o.result], thrown := none }

/-- `onReceiveRaw(line)`: the dispatcher, one decoded frame in. -/
def onReceiveRaw (runHandler : Nat → Envelope → SyncOutcome)
    (st : ClientState) (line : Parsed) : DispatchOutcome :=
  match line with
  | .parseFail msg =>
    sendResultOutcome st [] .null .null
      (some { code := StandardErrorCode.ParseError, message := msg })
  | .nonObject tn =>
    sendResultOutcome st [] .null .null
      (some { code := StandardErrorCode.InvalidRequest,
              message := "expected object, got " ++ tn })
  | .objVal o =>
    if !looseEq20 o.jsonrpc then
      sendResultOutcome st [] .null .null
        (some { code := StandardErrorCode.InvalidRequest,
                message := "expected jsonrpc = 2.0" })
    else if !o.id.truthy then
      notifBranch st o
    else if o.method.truthy then
      requestBranch runHandler st o
    else if o.result.truthy then
      resultBranch st o
    else if o.error.truthy then
      errorBranch st o
    else
      sendResultOutcome st [] o.id .null
        (some { code := StandardErrorCode.InvalidRequest,
                message := "has id but doesn\x27t have method, result, or error" })

/-- Transport events delivered to the listeners `connect(address)`
installs on the socket. -/
inductive ConnEvent where
  | connected
  | errorEv (msg : String)
  | closeEv
deriving Repr, DecidableEq

/-- Settlement state of the promise `connect` returns: a promise
settles at most once, by the first `resolve()` or `reject(e)` call. -/
inductive Settled where
  | pending
  | resolvedOk
  | rejectedErr (e : String)
deriving Repr, DecidableEq

/-- Observable state of one `connect` invocation: the client state,
the returned promise's settlement, and the warnings printed. -/
structure ConnectState where
  st : ClientState
  settled : Settled
  warnings : List String
deriving Repr, DecidableEq

/-- One transport event through `connect`'s listeners.
`connected`: `this.socket = socket`, attach the line pipe, `resolve()`.
`errorEv`/`closeEv`: when `this.socket` is unset the event is ignored
(the source comments this branch as covering an already-closed
client), else warn and clear `this.socket`.
The executor's `reject` is never invoked by any listener. -/
def connectStep (c : ConnectState) (e : ConnEvent) : ConnectState :=
  match e with
  | .connected =>
    { c with st := { c.st with socket := true },
             settled := match c.settled with
               | .pending => .resolvedOk
               | s => s }
  | .errorEv m =>
    if !c.st.socket then c
    else { c with st := { c.st with socket := false },
                  warnings := c.warnings ++ ["json-rpc socket error: " ++ m] }
  | .closeEv =>
    if !c.st.socket then c
    else { c with st := { c.st with socket := false },
                  warnings := c.warnings ++ ["json-rpc socket closed"] }

/-- The event-driven part of `connect` after the already-connected
guard: fold the transport's event sequence through the listeners. -/
def runConnectEvents (st : ClientState) (events : List ConnEvent) :
    ConnectState :=
  events.foldl connectStep { st := st, settled := .pending, warnings := [] }

/-- `connect(address)`: throw if `this.socket` is already set, else
open the transport and let its events drive the listeners. -/
def connect (st : ClientState) (events : List ConnEvent) :
    Except Thrown ConnectState :=
  if st.socket then .error .alreadyConnected
  else .ok (runConnectEvents st events)

/-- The id stream: `n` successive `generateID()` calls. -/
def genSeq (st : ClientState) : Nat → List Int × ClientState
  | 0 => ([], st)
  | n + 1 =>
    let (id, st1) := generateID st
    let (rest, st2) := genSeq st1 n
    (id :: rest, st2)

/-- A fixed handler oracle for concrete dispatch runs (every handler
returns `undefined`). -/
def defaultRun : Nat → Envelope → SyncOutcome := fun _ _ => .ok .undefined

/-- A connected client with one pending correlation for id 1. -/
def stPending : ClientState :=
  { socket := true, resultPromises := ["1"], requestHandlers := [],
    notificationHandlers := [], idSeed := 2 }

/-- Inbound error envelope for id 1 (its `error` field is an object). -/
def envErr1 : Envelope :=
  { jsonrpc := .jstr "2.0", id := .jnum 1, error := .jobj 0 }

/-- Inbound result envelope for id 1 whose result payload is the falsy
number `0`. -/
def envRes0 : Envelope :=
  { jsonrpc := .jstr "2.0", id := .jnum 1, result := .jnum 0 }

/-- A client with a request handler and a notification handler already
registered for method `"M"`. -/
def stReg : ClientState :=
  { newClient with requestHandlers := [("M", 7)],
                   notificationHandlers := [("M", 8)] }

/-- Inbound result envelope for id 1 with a truthy payload. -/
def envResOk : Envelope :=
  { jsonrpc := .jstr "2.0", id := .jnum 1, result := .jstr "ok" }

/-- A freshly connected client with nothing registered or pending. -/
def stConn : ClientState := { newClient with socket := true }

/-- Inbound request envelope for the unregistered method `"Y"`. -/
def envReqY : Envelope :=
  { jsonrpc := .jstr "2.0", id := .jnum 7, method := .jstr "Y" }

/-- Inbound envelope whose id field is the number `0`. -/
def envZero : Envelope :=
  { jsonrpc := .jstr "2.0", id := .jnum 0, method := .jstr "Log" }

/-- Closed form of the id stream: the `k`-th of `n` successive
`generateID()` calls returns `idSeed + k`. -/
theorem genSeq_fst (n : Nat) : ∀ st : ClientState,
    (genSeq st n).1 = (List.range n).map (fun i : Nat => st.idSeed + (i : Int)) := by
  induction n with
  | zero => intro st; rfl
  | succ m ih =>
    intro st
    simp only [genSeq, generateID, ih, List.range_succ_eq_map, List.map_cons,
      List.map_map]
    congr 1
    · simp
    · apply List.map_congr_left
      intro a _
      simp only [Function.comp_apply]
      push_cast
      ring

/-- Every `connectStep` either keeps the settlement or resolves it;
`reject` is never invoked. -/
theorem connectStep_settled (c : ConnectState) (e : ConnEvent) :
    (connectStep c e).settled = c.settled ∨
    (connectStep c e).settled = .resolvedOk := by
  cases e with
  | connected => cases hc : c.settled <;> simp [connectStep, hc]
  | errorEv m => by_cases hs : c.st.socket = true <;> simp [connectStep, hs]
  | closeEv => by_cases hs : c.st.socket = true <;> simp [connectStep, hs]

/-- C1: contrary to the claim, an inbound line that fails to parse as
JSON does NOT get answered with a ParseError(-32700) Result of id
`null`: the dispatcher builds exactly that envelope, but `sendResult`'s
falsy-id guard throws `missing id in result ...` on the `null` id, so
nothing is sent and the exception escapes `onReceiveRaw` to its
caller. -/
theorem C1_parse_failure_throws_instead_of_sending
    (rh : Nat → Envelope → SyncOutcome) (msg : String) (st : ClientState) :
    onReceiveRaw rh st (.parseFail msg) =
      { state := st, effects := [],
        thrown := some (.missingIdInResult
          { jsonrpc := "2.0", id := .null,
            error := some { code := StandardErrorCode.ParseError,
                            message := msg } }) } := rfl

/-- C2: on an inbound envelope with id 1 and an error object, with a
pending correlation for id 1, the dispatcher does remove the entry and
invoke the reject continuation — but it passes `obj.result` (which is
`undefined` here), not the envelope's Error object `envErr1.error`. -/
theorem C2_error_rejects_with_result_field :
    onReceiveRaw defaultRun stPending (.objVal envErr1) =
      { state := { stPending with resultPromises := [] },
        effects := [.rejected "1" .undefined], thrown := none } ∧
    envErr1.error = .jobj 0 ∧ envErr1.result = .undefined := ⟨rfl, rfl, rfl⟩

/-- C3: when opening the transport fails (the socket only ever emits
an error and then a close event), the client does end Disconnected, but
the promise `connect` returned is still pending — and over any event
sequence the promise can only stay pending or resolve successfully,
because no listener ever calls `reject`: the failure is never surfaced
to the caller. -/
theorem C3_connect_failure_leaves_promise_pending :
    (∀ m : String, connect newClient [.errorEv m, .closeEv] =
      .ok { st := newClient, settled := .pending, warnings := [] }) ∧
    (∀ (st : ClientState) (events : List ConnEvent),
      (runConnectEvents st events).settled = .pending ∨
      (runConnectEvents st events).settled = .resolvedOk) := by
  constructor
  · intro m
    rfl
  · intro st events
    have h : ∀ (evs : List ConnEvent) (c : ConnectState),
        (c.settled = .pending ∨ c.settled = .resolvedOk) →
        ((evs.foldl connectStep c).settled = .pending ∨
         (evs.foldl connectStep c).settled = .resolvedOk) := by
      intro evs
      induction evs with
      | nil => intro c hc; exact hc
      | cons e rest ih =>
        intro c hc
        apply ih
        rcases connectStep_settled c e with h1 | h1
        · rw [h1]; exact hc
        · exact Or.inr h1
    exact h events _ (Or.inl rfl)

/-- C10: `notify` builds the notification envelope and then discards
it — no write to the transport, no state change, for every method and
params. -/
theorem C10_notify_sends_nothing (st : ClientState) (method : String)
    (params : JsVal) : notify st method params = (st, []) := rfl

/-- C4 (counterexample): an inbound envelope with id 1 whose result
payload is the falsy number `0`, with a pending correlation for id 1,
is NOT resolved: the truthiness test `if (obj.result)` skips the result
branch, the envelope falls through to the invalid-request tail, an
InvalidRequest(-32600) Result is sent back, and the correlation entry
survives untouched. -/
theorem C4_falsy_result_not_resolved :
    stPending.resultPromises.contains ((JsVal.jnum 1).toKey) = true ∧
    envRes0.id = .jnum 1 ∧ envRes0.result = .jnum 0 ∧
    onReceiveRaw defaultRun stPending (.objVal envRes0) =
      { state := stPending,
        effects := [.sent (.resultMsg
          { jsonrpc := "2.0", id := .jnum 1,
            error := some { code := StandardErrorCode.InvalidRequest,
                            message := "has id but doesn\x27t have method, result, or error" } })],
        thrown := none } := ⟨rfl, rfl, rfl, rfl⟩

/-- C4 (amended): for every inbound envelope with a truthy id, no
truthy method, and a TRUTHY result value, the dispatcher looks up the
pending correlation for the id's key: if present it resolves the
continuation with the payload and removes the entry, if absent it warns
and drops the envelope. -/
theorem C4_truthy_result_dispatch (rh : Nat → Envelope → SyncOutcome)
    (st : ClientState) (o : Envelope)
    (h20 : looseEq20 o.jsonrpc = true) (hid : o.id.truthy = true)
    (hm : o.method.truthy = false) (hr : o.result.truthy = true) :
    (st.resultPromises.contains o.id.toKey = true →
      onReceiveRaw rh st (.objVal o) =
        { state := { st with resultPromises := st.resultPromises.erase o.id.toKey },
          effects := [.resolved o.id.toKey o.result], thrown := none }) ∧
    (st.resultPromises.contains o.id.toKey = false →
      onReceiveRaw rh st (.objVal o) =
        { state := st, effects := [.warnDroppedResult o.result],
          thrown := none }) := by
  constructor <;> intro hc <;> simp at hc <;>
    simp [onReceiveRaw, h20, hid, hm, hr, resultBranch, hc]

theorem C4_truthy_result_dispatch_witness :
    stPending.resultPromises.contains (envResOk.id.toKey) = true ∧
    onReceiveRaw defaultRun stPending (.objVal envResOk) =
      { state := { stPending with
          resultPromises := stPending.resultPromises.erase envResOk.id.toKey },
        effects := [.resolved envResOk.id.toKey envResOk.result],
        thrown := none } :=
  ⟨rfl,
   (C4_truthy_result_dispatch defaultRun stPending envResOk rfl rfl rfl rfl).1 rfl⟩

/-- C5: calling `call` while disconnected raises (either the missing-id
guard for a falsy seed or, in every reachable state, `sendRaw`'s
`trying to send on disconnected client`) and the correlation table is
exactly as before — the pending entry is only recorded after `sendRaw`
succeeds. -/
theorem C5_call_disconnected_raises_table_unchanged (st : ClientState)
    (method : String) (h : st.socket = false) :
    (∃ t, (call st method).2 = .error t) ∧
    (call st method).1.resultPromises = st.resultPromises := by
  by_cases hn : st.idSeed = 0
  · exact ⟨⟨.missingIdInRequest st.idSeed,
      by simp [call, createRequest, generateID, JsVal.truthy, hn]⟩,
      by simp [call, createRequest, generateID, JsVal.truthy, hn]⟩
  · exact ⟨⟨.disconnectedSend,
      by simp [call, createRequest, generateID, JsVal.truthy, hn, sendRaw, h]⟩,
      by simp [call, createRequest, generateID, JsVal.truthy, hn, sendRaw, h]⟩

theorem C5_call_disconnected_raises_table_unchanged_witness :
    (∃ t, (call newClient "Version.Get").2 = .error t) ∧
    (call newClient "Version.Get").1.resultPromises =
      newClient.resultPromises :=
  C5_call_disconnected_raises_table_unchanged newClient "Version.Get" rfl

/-- C6: the ids produced by successive `generateID()` calls on a fresh
client are strictly increasing, start at 1, and never repeat. -/
theorem C6_generated_ids_increasing (n : Nat) :
    List.Pairwise (· < ·) (genSeq newClient n).1 ∧
    (0 < n → (genSeq newClient n).1.head? = some 1) ∧
    (genSeq newClient n).1.Nodup := by
  have hform := genSeq_fst n newClient
  have hpw : List.Pairwise (· < ·) (genSeq newClient n).1 := by
    rw [hform]
    refine (List.pairwise_lt_range n).map _ ?_
    intro a b hab
    simp only [newClient]
    omega
  refine ⟨hpw, ?_, hpw.imp fun hab => ne_of_lt hab⟩
  intro hn
  obtain ⟨m, rfl⟩ := Nat.exists_eq_succ_of_ne_zero (Nat.pos_iff_ne_zero.mp hn)
  rw [hform]
  simp [List.range_succ_eq_map, newClient]

theorem C6_generated_ids_increasing_witness :
    List.Pairwise (· < ·) (genSeq newClient 3).1 ∧
    (genSeq newClient 3).1.head? = some 1 ∧
    (genSeq newClient 3).1.Nodup :=
  ⟨(C6_generated_ids_increasing 3).1,
   (C6_generated_ids_increasing 3).2.1 (by decide),
   (C6_generated_ids_increasing 3).2.2⟩

/-- C7: for any method with a handler already registered, registering a
second one — in either registry — throws at registration time and
leaves that registry exactly as it was. -/
theorem C7_duplicate_registration_fatal (st : ClientState) (m : String)
    (hnew : Nat) :
    ((st.requestHandlers.lookup m).isSome = true →
      (onRequest st m hnew).2 = some (.secondRequestHandler m) ∧
      (onRequest st m hnew).1.requestHandlers = st.requestHandlers) ∧
    ((st.notificationHandlers.lookup m).isSome = true →
      (onNotification st m hnew).2 = some (.secondNotificationHandler m) ∧
      (onNotification st m hnew).1.notificationHandlers =
        st.notificationHandlers) := by
  constructor
  · intro h
    obtain ⟨v, hv⟩ := Option.isSome_iff_exists.mp h
    simp [onRequest, createRequest, generateID, hv]
  · intro h
    obtain ⟨v, hv⟩ := Option.isSome_iff_exists.mp h
    simp [onNotification, hv]

theorem C7_duplicate_registration_fatal_witness :
    ((onRequest stReg "M" 9).2 = some (.secondRequestHandler "M") ∧
     (onRequest stReg "M" 9).1.requestHandlers = stReg.requestHandlers) ∧
    ((onNotification stReg "M" 9).2 = some (.secondNotificationHandler "M") ∧
     (onNotification stReg "M" 9).1.notificationHandlers =
       stReg.notificationHandlers) :=
  ⟨(C7_duplicate_registration_fatal stReg "M" 9).1 (by decide),
   (C7_duplicate_registration_fatal stReg "M" 9).2 (by decide)⟩

/-- C8: an inbound request (truthy id, truthy method) with no
registered request handler produces exactly one outbound Error Result,
code MethodNotFound(-32601), carrying the incoming id, with no state
change and no exception. -/
theorem C8_method_not_found (rh : Nat → Envelope → SyncOutcome)
    (st : ClientState) (o : Envelope)
    (hs : st.socket = true)
    (h20 : looseEq20 o.jsonrpc = true) (hid : o.id.truthy = true)
    (hm : o.method.truthy = true)
    (hh : st.requestHandlers.lookup o.method.toKey = none) :
    onReceiveRaw rh st (.objVal o) =
      { state := st,
        effects := [.sent (.resultMsg
          { jsonrpc := "2.0", id := o.id,
            error := some { code := StandardErrorCode.MethodNotFound,
                            message := "no handler is registered for method "
                              ++ o.method.toKey } })],
        thrown := none } := by
  simp [onReceiveRaw, h20, hid, hm, requestBranch, hh, sendResultOutcome,
    sendResult, createResult, sendRaw, hs]

theorem C8_method_not_found_witness :
    stConn.requestHandlers.lookup (envReqY.method.toKey) = none ∧
    onReceiveRaw defaultRun stConn (.objVal envReqY) =
      { state := stConn,
        effects := [.sent (.resultMsg
          { jsonrpc := "2.0", id := .jnum 7,
            error := some { code := StandardErrorCode.MethodNotFound,
                            message := "no handler is registered for method Y" } })],
        thrown := none } :=
  ⟨rfl, C8_method_not_found defaultRun stConn envReqY rfl rfl rfl rfl rfl⟩

/-- C9: an envelope whose id is the number `0` (or that lacks an id) is
classified by the falsy-style test as a Notification: it goes to the
notification branch, which only warns or invokes a notification
handler, never touching the request-handler, result, or error paths and
never changing state. -/
theorem C9_id_zero_is_notification (rh : Nat → Envelope → SyncOutcome)
    (st : ClientState) (o : Envelope)
    (h20 : looseEq20 o.jsonrpc = true)
    (hid : o.id = .jnum 0 ∨ o.id = .undefined) :
    onReceiveRaw rh st (.objVal o) = notifBranch st o ∧
    (notifBranch st o).state = st ∧ (notifBranch st o).thrown = none ∧
    ((notifBranch st o).effects = [.warnNoNotifHandler o] ∨
     ∃ tok, (notifBranch st o).effects = [.notified tok o]) := by
  have ht : o.id.truthy = false := by
    rcases hid with h | h <;> simp [h, JsVal.truthy]
  refine ⟨by simp [onReceiveRaw, h20, ht], ?_, ?_, ?_⟩
  · cases hl : st.notificationHandlers.lookup o.method.toKey <;>
      simp [notifBranch, hl]
  · cases hl : st.notificationHandlers.lookup o.method.toKey <;>
      simp [notifBranch, hl]
  · cases hl : st.notificationHandlers.lookup o.method.toKey with
    | none => exact Or.inl (by simp [notifBranch, hl])
    | some tok => exact Or.inr ⟨tok, by simp [notifBranch, hl]⟩

theorem C9_id_zero_is_notification_witness :
    onReceiveRaw defaultRun stPending (.objVal envZero) =
      notifBranch stPending envZero ∧
    (notifBranch stPending envZero).state = stPending ∧
    (notifBranch stPending envZero).thrown = none ∧
    ((notifBranch stPending envZero).effects =
       [.warnNoNotifHandler envZero] ∨
     ∃ tok, (notifBranch stPending envZero).effects =
       [.notified tok envZero]) :=
  C9_id_zero_is_notification defaultRun stPending envZero rfl (Or.inl rfl)

end ButlerNode
